import Mathlib

/-!
Shallow embedding of the BOM processing backend (Python) into Lean 4.

The definitions below translate, function by function, the code in
`backend/services/workflow_service.py`, `backend/services/workflow_service_backup.py`,
`backend/services/translation_service.py`, `backend/services/gemini_agent_service.py`
and `backend/models.py`.  Python dictionaries holding item data become Lean
structures with `Option` fields (a `none` models a missing key or `None` value);
exceptions become `Except` values threaded explicitly; the sqlite row updated by
`WorkflowModel.update_workflow_status` becomes a `Workflow` record.
-/

namespace BOM

/-- Python truthiness of an optional string combined with an `!= ''` check, as in
`item.get('part_number') and item.get('part_number') != ''`:
`None` and the empty string are falsy. -/
def truthy : Option String → Bool
  | none => false
  | some s => decide (s ≠ "")

/-- Python `needle in hay` substring test on character lists. -/
def hasSubstr (needle : List Char) : List Char → Bool
  | [] => needle.isEmpty
  | c :: t => needle.isPrefixOf (c :: t) || hasSubstr needle t

/-- Python `needle in hay` substring test on strings. -/
def strContains (hay needle : String) : Bool :=
  hasSubstr needle.toList hay.toList

/-- One extracted/classified item as produced by
`GeminiAgentService.extract_and_classify_items` and consumed by
`WorkflowService._deduplicate_items`.  Fields mirror the dictionary keys the
dedup/merge code reads; `reasoning` is read everywhere through
`.get('reasoning', '')`, so a missing key is modelled as `""`. -/
structure Item where
  material_name : Option String
  part_number : Option String
  reasoning : String
  confidence_score : Option Rat
  action_path : Option String
  qa_classification_label : Option String
deriving DecidableEq

/-- Python `str.strip()`: remove leading and trailing whitespace. -/
def pyStrip (s : String) : String :=
  ⟨(((s.data.dropWhile Char.isWhitespace).reverse.dropWhile Char.isWhitespace).reverse)⟩

/-- Python `str.lower()`: lowercase every character. -/
def pyLower (s : String) : String :=
  ⟨s.data.map Char.toLower⟩

/-- The normalized dedup key
`f"{material_name_str.lower()}||{part_number_str.lower()}"` built in
`_deduplicate_items` (strip, lowercase, `None` treated as `''`). -/
def normKey (i : Item) : String :=
  pyLower (pyStrip (i.material_name.getD "")) ++ "||" ++
    pyLower (pyStrip (i.part_number.getD ""))

/-- The `action_path_priority` dictionary lookup in `_deduplicate_items`
(`dict.get` returns `None` for unknown paths). -/
def pathPriority : Option String → Option Nat
  | none => none
  | some s =>
    if s = "🔴 Human Intervention Required" then some 3
    else if s = "🟠 Auto w/ Flag" then some 2
    else if s = "🟢 Auto-Register" then some 1
    else none

/-- The in-place merge performed by `_deduplicate_items` when a duplicate key
arrives: reasoning concatenation, max confidence score, most conservative
action path, and the (no-op) `qa_classification_label` consolidation
(`existing_item['qa_classification_label'] = existing_item.get('qa_classification_label')`). -/
def mergeInto (existing newItem : Item) : Item :=
  let newReasoning := newItem.reasoning
  let reasoning :=
    if newReasoning ≠ "" && !(strContains existing.reasoning newReasoning) then
      existing.reasoning ++ " | " ++ newReasoning
    else existing.reasoning
  let score := some (max (existing.confidence_score.getD 0) (newItem.confidence_score.getD 0))
  let currentPriority := pathPriority existing.action_path
  let newPriority := pathPriority newItem.action_path
  let actionPath :=
    match newPriority, currentPriority with
    | some np, some cp => if np > cp then newItem.action_path else existing.action_path
    | some _, none => newItem.action_path
    | none, _ => existing.action_path
  { existing with
    reasoning := reasoning
    confidence_score := score
    action_path := actionPath }

/-- One iteration of the `_deduplicate_items` loop: the Python
insertion-ordered dict `unique_items` is modelled as an association list in
insertion order; a present key merges in place, an absent key appends. -/
def dedupInsert (acc : List (String × Item)) (i : Item) : List (String × Item) :=
  if acc.any (fun p => p.1 == normKey i) then
    acc.map (fun p => if p.1 == normKey i then (p.1, mergeInto p.2 i) else p)
  else
    acc ++ [(normKey i, i)]

/-- `WorkflowService._deduplicate_items`: fold the loop over the input and
return `list(unique_items.values())` in first-occurrence key order. -/
def deduplicateItems (items : List Item) : List Item :=
  (items.foldl dedupInsert []).map (fun p => p.2)

/-! ## Workflow status row and orchestrator (`models.py`, `workflow_service.py`) -/

/-- One row of the `workflows` table, restricted to the columns
`update_workflow_status` touches or leaves alone.  `updatedAt` models the
`CURRENT_TIMESTAMP` written on every update (a monotone tick). -/
structure Workflow where
  status : String
  progress : Int
  currentStage : Option String
  message : Option String
  updatedAt : Nat
deriving DecidableEq

/-- `WorkflowModel.update_workflow_status`: always writes `status` and
`updated_at`; writes `progress` only when it `is not None`; writes
`current_stage` and `message` only when truthy (`if stage:` / `if message:`). -/
def updateWorkflowStatus (wf : Workflow) (now : Nat) (status : String)
    (progress : Option Int) (stage : Option String) (message : Option String) : Workflow :=
  { wf with
    status := status
    updatedAt := now
    progress := match progress with | some p => p | none => wf.progress
    currentStage := if truthy stage then stage else wf.currentStage
    message := if truthy message then message else wf.message }

/-- `TranslationService.translate_to_english`: the `try` body (API call plus
content extraction) is modelled by its outcome `api`; on any exception the
function returns the original `text` (the silent fallback at the end of the
function). -/
def translateToEnglish (api : Except String String) (text : String) : String :=
  match api with
  | .ok content => content
  | .error _ => text

/-- Outcomes of the external calls made inside the `try` block of
`_process_workflow_async`, as observed at each call site: `extract` is the
extracting-stage body (`extract_text` / `parse_item_master` / `get_items`),
`translateCall` the call to `translate_to_english`, and `classify` the call to
`extract_and_classify_items`.  An `.error e` models the call raising an
exception whose message is `e`. -/
structure Env where
  extract : Except String String
  translateCall : Except String String
  classify : Except String (List Item)

/-- Observable outcome of one run of `_process_workflow_async`: the final
workflow row, whether `_save_workflow_results` ran (a `WorkflowResult` row and
results file were written), and the items handed to the knowledge-base sink
(`_add_to_knowledge_base`) and the pending-approval sink
(`_create_pending_approvals`). -/
structure RunResult where
  wf : Workflow
  resultsSaved : Bool
  kbSink : List Item
  pendingSink : List Item
deriving DecidableEq

/-- The `'🟢 Auto-Register'` action-path literal used by the routing split. -/
def autoRegisterPath : String := "🟢 Auto-Register"

/-- `WorkflowService._process_workflow_async`: status milestones 10/30/50/100,
the dedup + routing split on success, and the `except` handler that sets
`status='error'` with a `Processing failed: ...` message and performs no
further work (so nothing is saved when a stage raises). -/
def processWorkflowAsync (wf0 : Workflow) (env : Env) : RunResult :=
  let wf1 := updateWorkflowStatus wf0 (wf0.updatedAt + 1) "processing"
    (some 10) (some "extracting") (some "Extracting data from documents")
  match env.extract with
  | .error e =>
    ⟨updateWorkflowStatus wf1 (wf1.updatedAt + 1) "error" none none
      (some ("Processing failed: " ++ e)), false, [], []⟩
  | .ok _ =>
    let wf2 := updateWorkflowStatus wf1 (wf1.updatedAt + 1) "processing"
      (some 30) (some "translating") (some "Translating document to English")
    match env.translateCall with
    | .error e =>
      ⟨updateWorkflowStatus wf2 (wf2.updatedAt + 1) "error" none none
        (some ("Processing failed: " ++ e)), false, [], []⟩
    | .ok _ =>
      let wf3 := updateWorkflowStatus wf2 (wf2.updatedAt + 1) "processing"
        (some 50) (some "classifying") (some "Classifying and matching items with Gemini")
      match env.classify with
      | .error e =>
        ⟨updateWorkflowStatus wf3 (wf3.updatedAt + 1) "error" none none
          (some ("Processing failed: " ++ e)), false, [], []⟩
      | .ok extracted =>
        let dedup := deduplicateItems extracted
        let autoItems := dedup.filter (fun i => i.action_path == some autoRegisterPath)
        let reviewItems := dedup.filter (fun i => !(i.action_path == some autoRegisterPath))
        ⟨updateWorkflowStatus wf3 (wf3.updatedAt + 1) "completed"
          (some 100) (some "completed") (some "Processing completed successfully"),
         true, autoItems, reviewItems⟩

/-! ## Resilient external-call wrapper (`_call_api_with_retry`) -/

/-- Outcome of one `requests.post(...)` + `raise_for_status()` attempt inside
`_call_api_with_retry`: success, an `HTTPError` with a status code, or another
`RequestException`. -/
inductive Attempt where
  | ok (resp : String)
  | httpError (statusCode : Nat) (msg : String)
  | requestException (msg : String)
deriving DecidableEq

/-- Observable trace of one `_call_api_with_retry` run: the returned value
(`.ok (some r)` a response, `.ok none` the final `return None`, `.error` a
raised `RuntimeError`), the number of attempts made, and the list of backoff
sleeps performed (`2 ** i` seconds). -/
structure RetryTrace where
  result : Except String (Option String)
  attemptsMade : Nat
  delays : List Nat

/-- The `for i in range(max_retries)` loop of `_call_api_with_retry`, with
`fuel` the number of remaining iterations (`fuel = maxRetries - i`).  A 429
`HTTPError` with `i < max_retries - 1` sleeps `2 ** i` and continues; any other
`HTTPError` raises `RuntimeError(f"API call failed after {i+1} retries: ...")`;
any other `RequestException` raises `RuntimeError(f"API call failed: ...")`. -/
def retryLoop (attempts : Nat → Attempt) (maxRetries : Nat) :
    Nat → Nat → List Nat → RetryTrace
  | 0, i, delays => ⟨.ok none, i, delays⟩
  | fuel + 1, i, delays =>
    match attempts i with
    | .ok r => ⟨.ok (some r), i + 1, delays⟩
    | .httpError code msg =>
      if code = 429 ∧ i < maxRetries - 1 then
        retryLoop attempts maxRetries fuel (i + 1) (delays ++ [2 ^ i])
      else
        ⟨.error ("API call failed after " ++ toString (i + 1) ++ " retries: " ++ msg),
         i + 1, delays⟩
    | .requestException msg =>
      ⟨.error ("API call failed: " ++ msg), i + 1, delays⟩

/-- `_call_api_with_retry(payload, max_retries)`: run the loop from `i = 0`
with `max_retries` iterations of fuel.  (`gemini_agent_service.py` and
`translation_service.py` contain the same function; the default bound is 5.) -/
def callApiWithRetry (attempts : Nat → Attempt) (maxRetries : Nat) : RetryTrace :=
  retryLoop attempts maxRetries maxRetries 0 []

/-! ## Rule-based classifier (`workflow_service_backup.py::_apply_classification_logic`) -/

/-- The raw extracted item fields read by `_apply_classification_logic` before
it overwrites the classification outputs. -/
structure RawItem where
  part_number : Option String
  material_name : Option String
  qty : Option String
  vendor_name : Option String
  kit_available : Bool
  spec_match : Bool
  multiple_references : Bool
deriving DecidableEq

/-- One row of the item master list the classifier matches against. -/
structure MasterItem where
  part_number : Option String
  material_name : Option String
deriving DecidableEq

/-- The classification outputs `_apply_classification_logic` writes into the
item: label, confidence level, reasoning, action path, score, and the boolean
flags it initializes to a default low-confidence state and selectively sets. -/
structure Classification where
  qa_classification_label : String
  qa_confidence_level : String
  reasoning : String
  action_path : String
  confidence_score : Rat
  pn_match : Bool
  name_mismatch : Bool
  pn_mismatch : Bool
  obsolete_pn : Bool
  vendor_name_only : Bool
  kit_available : Bool
  is_consumable : Bool
deriving DecidableEq

/-- `_is_part_number_obsolete` placeholder: `pn == 'OBSOLETE-PN'`, applied to
`item.get('part_number', '')`. -/
def isPartNumberObsolete (pn : String) : Bool :=
  pn == "OBSOLETE-PN"

/-- `_is_name_ambiguous` placeholder: `'Ambiguous' in name or 'Vague' in name`. -/
def isNameAmbiguous (name : String) : Bool :=
  strContains name "Ambiguous" || strContains name "Vague"

/-- `_apply_classification_logic`: the 13-rule priority chain in source order
(rules 1, 2, 3, 9, 11, 12, 4, 6, 7, 8, 10, 13, then default rule 5).  The
knowledge-base enrichment preceding the chain only attaches `kb_match` /
`supplier_match` fields, which no rule consults, so it does not appear here.
`is_kit` is read before the flag-reset `item.update`, hence from the input. -/
def applyClassificationLogic (item : RawItem) (master : List MasterItem) : Classification :=
  let hasPn := truthy item.part_number
  let hasName := truthy item.material_name
  let hasQty := truthy item.qty
  let hasVendor := truthy item.vendor_name
  let isKit := item.kit_available
  let pnMatchInMaster := hasPn && master.any (fun m => m.part_number == item.part_number)
  let nameMatchInMaster := hasName && master.any (fun m => m.material_name == item.material_name)
  if pnMatchInMaster && hasQty && hasName then
    ⟨"1", "high", "Match to BOM & Item Master Data", "🟢 Auto-Register", 0.95,
     true, false, false, false, false, false, true⟩
  else if pnMatchInMaster && hasQty && item.spec_match then
    ⟨"2", "high", "Verify process parameters match", "🟢 Auto-Register", 0.90,
     true, false, false, false, false, false, true⟩
  else if pnMatchInMaster && !hasQty then
    ⟨"3", "medium", "Infer qty from BOM history", "🟠 Auto w/ Flag", 0.70,
     true, false, false, false, false, false, true⟩
  else if hasVendor && !hasPn && !hasName then
    ⟨"9", "medium", "Map vendor to consumable in master", "🟠 Auto w/ Flag", 0.60,
     false, false, false, false, true, false, false⟩
  else if isKit && hasPn then
    ⟨"11", "medium", "Expand kit BOM", "🟠 Auto w/ Flag", 0.55,
     false, false, false, false, false, true, true⟩
  else if !hasPn && hasName && hasQty then
    ⟨"12", "medium", "Merge WI with QC steps", "🟠 Auto w/ Flag", 0.65,
     false, false, false, false, false, false, true⟩
  else if !hasPn && nameMatchInMaster then
    ⟨"4", "low", "Check for text match in master data", "🔴 Human Intervention Required", 0.40,
     false, false, false, false, false, false, true⟩
  else if hasPn && hasName && !pnMatchInMaster then
    ⟨"6", "low", "Compare QC vs BOM & Master Data", "🔴 Human Intervention Required", 0.30,
     false, false, true, false, false, false, true⟩
  else if isPartNumberObsolete (item.part_number.getD "") && hasName then
    ⟨"7", "low", "Cross-check active/inactive status", "🔴 Human Intervention Required", 0.20,
     false, false, false, true, false, false, true⟩
  else if isNameAmbiguous (item.material_name.getD "") then
    ⟨"8", "low", "NLP ambiguity score high", "🔴 Human Intervention Required", 0.35,
     false, true, false, false, false, false, false⟩
  else if item.multiple_references then
    ⟨"10", "low", "Detect multiple material refs", "🔴 Human Intervention Required", 0.10,
     false, false, false, false, false, false, false⟩
  else if hasVendor && isKit && !hasPn then
    ⟨"13", "low", "Map vendor, expand kit BOM", "🔴 Human Intervention Required", 0.25,
     false, false, false, false, false, false, false⟩
  else
    ⟨"5", "low", "No match found", "🔴 Human Intervention Required", 0.0,
     false, false, false, false, false, false, false⟩

/-! ## Deduplication lemmas -/

/-- Merging never touches the key fields, so the normalized key is stable. -/
lemma normKey_mergeInto (e n : Item) : normKey (mergeInto e n) = normKey e := rfl

/-- Every association stored by one dedup step is keyed by its item's key. -/
lemma dedupInsert_key_inv (acc : List (String × Item)) (i : Item)
    (h : ∀ p ∈ acc, normKey p.2 = p.1) :
    ∀ p ∈ dedupInsert acc i, normKey p.2 = p.1 := by
  intro p hp
  unfold dedupInsert at hp
  split at hp
  · obtain ⟨q, hq, rfl⟩ := List.mem_map.1 hp
    by_cases hqk : (q.1 == normKey i) = true
    · simp only [hqk, if_true]
      exact (normKey_mergeInto q.2 i).trans (h q hq)
    · simp only [hqk, if_false]
      exact h q hq
  · rcases List.mem_append.1 hp with hl | hr
    · exact h p hl
    · rcases List.mem_singleton.1 hr with rfl
      rfl

/-- One dedup step keeps the stored keys pairwise distinct. -/
lemma dedupInsert_fst_nodup (acc : List (String × Item)) (i : Item)
    (h : (acc.map Prod.fst).Nodup) :
    ((dedupInsert acc i).map Prod.fst).Nodup := by
  unfold dedupInsert
  split
  · rw [List.map_map]
    have hfun : (Prod.fst ∘ fun p : String × Item =>
        if p.1 == normKey i then (p.1, mergeInto p.2 i) else p) = Prod.fst := by
      funext p
      by_cases hp : p.1 = normKey i <;> simp [hp]
    rw [hfun]
    exact h
  · rename_i hany
    rw [List.map_append]
    rw [List.nodup_append]
    refine ⟨h, by simp, ?_⟩
    intro a ha hb
    rcases List.mem_singleton.1 (by simpa using hb) with rfl
    obtain ⟨q, hq, hqa⟩ := List.mem_map.1 ha
    apply hany
    exact List.any_eq_true.2 ⟨q, hq, by rw [hqa]; exact beq_self_eq_true _⟩

/-- Folding the dedup loop preserves the key invariant. -/
lemma foldl_key_inv (items : List Item) :
    ∀ acc, (∀ p ∈ acc, normKey p.2 = p.1) →
      ∀ p ∈ items.foldl dedupInsert acc, normKey p.2 = p.1 := by
  induction items with
  | nil => intro acc h; simpa using h
  | cons x rest ih =>
    intro acc h
    exact ih _ (dedupInsert_key_inv acc x h)

/-- Folding the dedup loop preserves key distinctness. -/
lemma foldl_fst_nodup (items : List Item) :
    ∀ acc, (acc.map Prod.fst).Nodup →
      ((items.foldl dedupInsert acc).map Prod.fst).Nodup := by
  induction items with
  | nil => intro acc h; simpa using h
  | cons x rest ih =>
    intro acc h
    exact ih _ (dedupInsert_fst_nodup acc x h)

/-- When an item's key is absent, a dedup step is a plain append. -/
lemma dedupInsert_fresh (acc : List (String × Item)) (i : Item)
    (h : ∀ p ∈ acc, p.1 ≠ normKey i) :
    dedupInsert acc i = acc ++ [(normKey i, i)] := by
  unfold dedupInsert
  rw [if_neg]
  intro hc
  obtain ⟨q, hq, hqk⟩ := List.any_eq_true.1 hc
  exact h q hq (eq_of_beq hqk)

/-- A list of items whose keys are fresh and pairwise distinct folds to a
plain append of key/item pairs. -/
lemma foldl_fresh_all (xs : List Item) :
    ∀ acc : List (String × Item),
      (∀ x ∈ xs, ∀ p ∈ acc, p.1 ≠ normKey x) → (xs.map normKey).Nodup →
      xs.foldl dedupInsert acc = acc ++ xs.map (fun x => (normKey x, x)) := by
  induction xs with
  | nil => intro acc _ _; simp
  | cons x rest ih =>
    intro acc hfresh hnodup
    have h1 : dedupInsert acc x = acc ++ [(normKey x, x)] :=
      dedupInsert_fresh acc x (fun p hp => hfresh x (List.mem_cons_self x rest) p hp)
    have hnodup' : (normKey x :: rest.map normKey).Nodup := by
      simpa using hnodup
    have hx : normKey x ∉ rest.map normKey := (List.nodup_cons.1 hnodup').1
    have htail : (rest.map normKey).Nodup := (List.nodup_cons.1 hnodup').2
    rw [List.foldl_cons, h1,
      ih (acc ++ [(normKey x, x)])
        (by
          intro y hy p hp
          rcases List.mem_append.1 hp with hl | hr
          · exact hfresh y (List.mem_cons_of_mem x hy) p hl
          · rcases List.mem_singleton.1 hr with rfl
            intro hcontr
            have hmem : normKey y ∈ rest.map normKey := List.mem_map_of_mem normKey hy
            rw [← hcontr] at hmem
            exact hx hmem)
        (by simpa using htail)]
    simp

/-- Two items with the same normalized key deduplicate to their merge. -/
lemma dedup_pair (a b : Item) (h : normKey a = normKey b) :
    deduplicateItems [a, b] = [mergeInto a b] := by
  unfold deduplicateItems
  have h1 : dedupInsert [] a = [(normKey a, a)] := by
    simp [dedupInsert]
  have h2 : dedupInsert [(normKey a, a)] b = [(normKey a, mergeInto a b)] := by
    unfold dedupInsert
    rw [h]
    simp
  simp [List.foldl, h1, h2]

/-! ## Claim theorems -/

/-- Claim C8: deduplication is idempotent — applying `_deduplicate_items` to
its own output returns that output unchanged, for every input list. -/
theorem dedup_idempotent (items : List Item) :
    deduplicateItems (deduplicateItems items) = deduplicateItems items := by
  have hkeys : ∀ p ∈ items.foldl dedupInsert [], normKey p.2 = p.1 :=
    foldl_key_inv items [] (by simp)
  have hnd : ((items.foldl dedupInsert []).map Prod.fst).Nodup :=
    foldl_fst_nodup items [] (by simp)
  have hmapeq : (items.foldl dedupInsert []).map (fun p => normKey p.2) =
      (items.foldl dedupInsert []).map Prod.fst :=
    List.map_congr_left hkeys
  have hout : ((deduplicateItems items).map normKey).Nodup := by
    unfold deduplicateItems
    rw [List.map_map]
    have : (normKey ∘ fun p : String × Item => p.2) = fun p : String × Item => normKey p.2 := rfl
    rw [this, hmapeq]
    exact hnd
  have hfold := foldl_fresh_all (deduplicateItems items) [] (by simp) hout
  conv_lhs => rw [deduplicateItems, hfold]
  rw [List.nil_append, List.map_map]
  have hid : ((fun p : String × Item => p.2) ∘ fun x : Item => (normKey x, x)) = id := rfl
  rw [hid, List.map_id]

/-- Claim C3 counterexample: a first occurrence with no
`qa_classification_label` merged with a duplicate carrying label `"3"` keeps
the absent value — the new item's label does not fill the gap, refuting the
claim's fill-in clause. -/
theorem label_merge_cex :
    normKey ⟨some "Screw", some "PN-1", "", none, none, none⟩ =
      normKey ⟨some "Screw", some "PN-1", "", none, none, some "3"⟩ ∧
    (deduplicateItems
        [⟨some "Screw", some "PN-1", "", none, none, none⟩,
         ⟨some "Screw", some "PN-1", "", none, none, some "3"⟩]).map
      (fun i => i.qa_classification_label) ≠ [some "3"] ∧
    (deduplicateItems
        [⟨some "Screw", some "PN-1", "", none, none, none⟩,
         ⟨some "Screw", some "PN-1", "", none, none, some "3"⟩]).map
      (fun i => i.qa_classification_label) = [none] := by
  refine ⟨rfl, by decide, by decide⟩

/-- Claim C3 (amended): in the dedup merge of two items with the same
normalized key, the merged record's `qa_classification_label` is always the
first occurrence's value — also when that value is absent; the second item's
value never fills the gap (the consolidation line assigns the existing value
back to itself). -/
theorem label_merge_first_seen (a b : Item) (h : normKey a = normKey b) :
    deduplicateItems [a, b] = [mergeInto a b] ∧
    (mergeInto a b).qa_classification_label = a.qa_classification_label := by
  exact ⟨dedup_pair a b h, rfl⟩

/-- Witness for C3 (amended) at a concrete duplicate pair. -/
theorem label_merge_first_seen_witness :
    deduplicateItems
        [⟨some "Bolt", some "PN-9", "", none, none, some "2"⟩,
         ⟨some "bolt", some "pn-9", "", none, none, some "4"⟩] =
      [mergeInto ⟨some "Bolt", some "PN-9", "", none, none, some "2"⟩
         ⟨some "bolt", some "pn-9", "", none, none, some "4"⟩] ∧
    (mergeInto ⟨some "Bolt", some "PN-9", "", none, none, some "2"⟩
        ⟨some "bolt", some "pn-9", "", none, none, some "4"⟩).qa_classification_label =
      some "2" :=
  ⟨(label_merge_first_seen _ _ (by decide)).1,
   (label_merge_first_seen _ _ (by decide)).2⟩

/-- Claim C7: merging two duplicate items whose action paths both carry a
priority keeps the more conservative path — the merged priority is the
maximum of the two, and the merged path is the higher-priority input path. -/
theorem merge_action_path_conservative (a b : Item) (pa pb : Nat)
    (hkey : normKey a = normKey b)
    (hpa : pathPriority a.action_path = some pa)
    (hpb : pathPriority b.action_path = some pb) :
    deduplicateItems [a, b] = [mergeInto a b] ∧
    pathPriority (mergeInto a b).action_path = some (max pa pb) ∧
    (mergeInto a b).action_path =
      (if pa < pb then b.action_path else a.action_path) := by
  refine ⟨dedup_pair a b hkey, ?_, ?_⟩
  · unfold mergeInto
    rw [hpa, hpb]
    by_cases h : pb > pa
    · simp only [h, if_true, hpb]
      congr 1
      omega
    · simp only [h, if_false, hpa]
      congr 1
      omega
  · unfold mergeInto
    rw [hpa, hpb]

/-- Witness for C7: merging a human-review item with an auto-register item of
the same key yields human-review. -/
theorem merge_action_path_conservative_witness :
    deduplicateItems
        [⟨some "Tape", some "PN-5", "", none, some "🔴 Human Intervention Required", none⟩,
         ⟨some "Tape", some "PN-5", "", none, some "🟢 Auto-Register", none⟩] =
      [mergeInto
         ⟨some "Tape", some "PN-5", "", none, some "🔴 Human Intervention Required", none⟩
         ⟨some "Tape", some "PN-5", "", none, some "🟢 Auto-Register", none⟩] ∧
    (mergeInto
        ⟨some "Tape", some "PN-5", "", none, some "🔴 Human Intervention Required", none⟩
        ⟨some "Tape", some "PN-5", "", none, some "🟢 Auto-Register", none⟩).action_path =
      some "🔴 Human Intervention Required" := by
  have h := merge_action_path_conservative
    ⟨some "Tape", some "PN-5", "", none, some "🔴 Human Intervention Required", none⟩
    ⟨some "Tape", some "PN-5", "", none, some "🟢 Auto-Register", none⟩
    3 1 (by decide) (by decide) (by decide)
  exact ⟨h.1, by rw [h.2.2]; norm_num⟩

/-- Whether a modelled call outcome is a raised exception. -/
def exceptRaised {α : Type} : Except String α → Bool
  | .error _ => true
  | .ok _ => false

/-- Some call inside the extracting, translating, or classifying stage raised. -/
def stageRaised (env : Env) : Bool :=
  exceptRaised env.extract || exceptRaised env.translateCall || exceptRaised env.classify

/-- A `Processing failed: ...` message is never the empty string, so the
status update always stores it. -/
lemma truthy_processing_failed (e : String) :
    truthy (some ("Processing failed: " ++ e)) = true := by
  simp only [truthy, decide_eq_true_eq]
  intro h
  have hlen := congrArg String.length h
  rw [String.length_append] at hlen
  have h19 : ("Processing failed: " : String).length = 19 := rfl
  have h0 : ("" : String).length = 0 := rfl
  omega

/-- Splitting a list by a boolean predicate preserves the total length. -/
lemma filter_length_partition (l : List Item) (p : Item → Bool) :
    (l.filter p).length + (l.filter (fun a => !(p a))).length = l.length := by
  induction l with
  | nil => simp
  | cons a t ih =>
    by_cases h : p a = true <;>
      simp [List.filter_cons, h] <;> omega

/-- Claim C5: if a call raised during the extracting, translating, or
classifying stage, the workflow ends with status `error` and a
`Processing failed:` message, `_save_workflow_results` never runs (no
`WorkflowResult` is persisted), and nothing reaches either sink. -/
theorem stage_exception_discards (wf0 : Workflow) (env : Env)
    (h : stageRaised env = true) :
    (processWorkflowAsync wf0 env).wf.status = "error" ∧
    (∃ e, (processWorkflowAsync wf0 env).wf.message =
       some ("Processing failed: " ++ e)) ∧
    (processWorkflowAsync wf0 env).resultsSaved = false ∧
    (processWorkflowAsync wf0 env).kbSink = [] ∧
    (processWorkflowAsync wf0 env).pendingSink = [] := by
  rcases env with ⟨ex, tr, cl⟩
  rcases ex with e | doc
  · refine ⟨rfl, ⟨e, ?_⟩, rfl, rfl, rfl⟩
    simp [processWorkflowAsync, updateWorkflowStatus, truthy_processing_failed]
  · rcases tr with e | t
    · refine ⟨rfl, ⟨e, ?_⟩, rfl, rfl, rfl⟩
      simp [processWorkflowAsync, updateWorkflowStatus, truthy_processing_failed]
    · rcases cl with e | items
      · refine ⟨rfl, ⟨e, ?_⟩, rfl, rfl, rfl⟩
        simp [processWorkflowAsync, updateWorkflowStatus, truthy_processing_failed]
      · simp [stageRaised, exceptRaised] at h

/-- Witness for C5: a classification-stage exception yields an error status
with nothing persisted. -/
theorem stage_exception_discards_witness :
    stageRaised ⟨.ok "doc", .ok "doc-en", .error "boom"⟩ = true ∧
    (processWorkflowAsync ⟨"pending", 0, none, none, 0⟩
        ⟨.ok "doc", .ok "doc-en", .error "boom"⟩).wf.status = "error" ∧
    (processWorkflowAsync ⟨"pending", 0, none, none, 0⟩
        ⟨.ok "doc", .ok "doc-en", .error "boom"⟩).resultsSaved = false :=
  ⟨rfl,
   (stage_exception_discards ⟨"pending", 0, none, none, 0⟩
      ⟨.ok "doc", .ok "doc-en", .error "boom"⟩ rfl).1,
   (stage_exception_discards ⟨"pending", 0, none, none, 0⟩
      ⟨.ok "doc", .ok "doc-en", .error "boom"⟩ rfl).2.2.1⟩

/-- Claim C9: on a successful run every deduplicated item is handed to exactly
one sink — the knowledge-base sink iff its action path is `🟢 Auto-Register`,
the pending-approval sink iff it is anything else — and the two sinks together
carry exactly the deduplicated items. -/
theorem routing_split (wf0 : Workflow) (env : Env) (items : List Item)
    (hex : exceptRaised env.extract = false)
    (htr : exceptRaised env.translateCall = false)
    (hcl : env.classify = .ok items) :
    (∀ x, x ∈ (processWorkflowAsync wf0 env).kbSink ↔
       x ∈ deduplicateItems items ∧ x.action_path = some autoRegisterPath) ∧
    (∀ x, x ∈ (processWorkflowAsync wf0 env).pendingSink ↔
       x ∈ deduplicateItems items ∧ x.action_path ≠ some autoRegisterPath) ∧
    (processWorkflowAsync wf0 env).kbSink.length +
        (processWorkflowAsync wf0 env).pendingSink.length =
      (deduplicateItems items).length := by
  rcases env with ⟨ex, tr, cl⟩
  rcases ex with e | doc
  · simp [exceptRaised] at hex
  · rcases tr with e | t
    · simp [exceptRaised] at htr
    · change cl = Except.ok items at hcl
      subst hcl
      refine ⟨?_, ?_, ?_⟩
      · intro x
        simp [processWorkflowAsync, List.mem_filter]
      · intro x
        simp [processWorkflowAsync, List.mem_filter]
      · exact filter_length_partition (deduplicateItems items) _

/-- Witness for C9 at a concrete successful run with one item per sink. -/
theorem routing_split_witness :
    ((processWorkflowAsync ⟨"pending", 0, none, none, 0⟩
        ⟨.ok "doc", .ok "doc-en",
         .ok [⟨some "A", some "P1", "", none, some "🟢 Auto-Register", none⟩,
              ⟨some "B", some "P2", "", none, some "🔴 Human Intervention Required", none⟩]⟩).kbSink.length +
      (processWorkflowAsync ⟨"pending", 0, none, none, 0⟩
        ⟨.ok "doc", .ok "doc-en",
         .ok [⟨some "A", some "P1", "", none, some "🟢 Auto-Register", none⟩,
              ⟨some "B", some "P2", "", none, some "🔴 Human Intervention Required", none⟩]⟩).pendingSink.length) =
      (deduplicateItems
        [⟨some "A", some "P1", "", none, some "🟢 Auto-Register", none⟩,
         ⟨some "B", some "P2", "", none, some "🔴 Human Intervention Required", none⟩]).length :=
  (routing_split ⟨"pending", 0, none, none, 0⟩
    ⟨.ok "doc", .ok "doc-en",
     .ok [⟨some "A", some "P1", "", none, some "🟢 Auto-Register", none⟩,
          ⟨some "B", some "P2", "", none, some "🔴 Human Intervention Required", none⟩]⟩
    [⟨some "A", some "P1", "", none, some "🟢 Auto-Register", none⟩,
     ⟨some "B", some "P2", "", none, some "🔴 Human Intervention Required", none⟩]
    rfl rfl rfl).2.2

/-- Claim C10: a status update only writes the fields it supplies — with
`progress`, `stage`, `message` all `None`, the stored row changes only in
`status` and `updated_at`; consequently a workflow failing in the classifying
stage keeps progress 50 and stage `classifying` alongside status `error`. -/
theorem update_status_frame :
    (∀ (wf : Workflow) (now : Nat) (s : String),
       updateWorkflowStatus wf now s none none none =
         { wf with status := s, updatedAt := now }) ∧
    (∀ (wf0 : Workflow) (env : Env) (e : String),
       exceptRaised env.extract = false → exceptRaised env.translateCall = false →
       env.classify = .error e →
       (processWorkflowAsync wf0 env).wf.status = "error" ∧
       (processWorkflowAsync wf0 env).wf.progress = 50 ∧
       (processWorkflowAsync wf0 env).wf.currentStage = some "classifying") := by
  constructor
  · intro wf now s
    rfl
  · intro wf0 env e hex htr hcl
    rcases env with ⟨ex, tr, cl⟩
    rcases ex with e' | doc
    · simp [exceptRaised] at hex
    · rcases tr with e' | t
      · simp [exceptRaised] at htr
      · rcases cl with e' | items
        · have he : e' = e := by injection hcl
          subst he
          refine ⟨rfl, rfl, rfl⟩
        · exact absurd hcl (by simp)

/-- Witness for C10: concrete frame update and concrete failed run. -/
theorem update_status_frame_witness :
    updateWorkflowStatus ⟨"processing", 30, some "translating", some "msg", 3⟩ 4 "error"
        none none none =
      ⟨"error", 30, some "translating", some "msg", 4⟩ ∧
    (processWorkflowAsync ⟨"pending", 0, none, none, 0⟩
        ⟨.ok "doc", .ok "doc-en", .error "boom"⟩).wf.progress = 50 ∧
    (processWorkflowAsync ⟨"pending", 0, none, none, 0⟩
        ⟨.ok "doc", .ok "doc-en", .error "boom"⟩).wf.currentStage = some "classifying" :=
  ⟨update_status_frame.1 ⟨"processing", 30, some "translating", some "msg", 3⟩ 4 "error",
   (update_status_frame.2 ⟨"pending", 0, none, none, 0⟩
      ⟨.ok "doc", .ok "doc-en", .error "boom"⟩ "boom" rfl rfl rfl).2.1,
   (update_status_frame.2 ⟨"pending", 0, none, none, 0⟩
      ⟨.ok "doc", .ok "doc-en", .error "boom"⟩ "boom" rfl rfl rfl).2.2⟩

/-- Claim C1 (code bug evidence): when the translation API call raises,
`translate_to_english` falls back to the original untranslated text, and the
orchestrated workflow ends `completed` with results saved instead of failing
the stage. -/
theorem translation_failure_masked :
    translateToEnglish (.error "connection error") "製品テスト" = "製品テスト" ∧
    (processWorkflowAsync ⟨"pending", 0, none, none, 0⟩
        ⟨.ok "製品テスト",
         .ok (translateToEnglish (.error "connection error") "製品テスト"),
         .ok []⟩).wf.status = "completed" ∧
    (processWorkflowAsync ⟨"pending", 0, none, none, 0⟩
        ⟨.ok "製品テスト",
         .ok (translateToEnglish (.error "connection error") "製品テスト"),
         .ok []⟩).resultsSaved = true :=
  ⟨rfl, rfl, rfl⟩

/-! ## Classifier theorems -/

/-- Claim C2 counterexample: the item with part number `OBSOLETE-PN` and a
name present is classified with label `6` (part-number mismatch rule, score
0.30), not label `7` with score 0.20 as claimed — the mismatch rule precedes
the obsolete rule in the chain. -/
theorem obsolete_pn_claim_cex :
    isPartNumberObsolete
        ((⟨some "OBSOLETE-PN", some "Widget", none, none, false, false, false⟩ :
          RawItem).part_number.getD "") = true ∧
    truthy (⟨some "OBSOLETE-PN", some "Widget", none, none, false, false, false⟩ :
        RawItem).material_name = true ∧
    (applyClassificationLogic
        ⟨some "OBSOLETE-PN", some "Widget", none, none, false, false, false⟩
        []).qa_classification_label = "6" ∧
    (applyClassificationLogic
        ⟨some "OBSOLETE-PN", some "Widget", none, none, false, false, false⟩
        []).qa_classification_label ≠ "7" ∧
    (applyClassificationLogic
        ⟨some "OBSOLETE-PN", some "Widget", none, none, false, false, false⟩
        []).confidence_score ≠ 0.20 := by
  refine ⟨rfl, rfl, rfl, by decide, ?_⟩
  have h : (applyClassificationLogic
      ⟨some "OBSOLETE-PN", some "Widget", none, none, false, false, false⟩
      []).confidence_score = 0.30 := rfl
  rw [h]
  norm_num

/-- Claim C2 (amended): an item whose part number is flagged obsolete and
whose name is present is caught by the earlier part-number-mismatch rule
whenever its part number is not in the master and no kit flag is set: label
`6`, low confidence, human review, score 0.30; label `7` is not assigned. -/
theorem obsolete_pn_routes_to_pn_mismatch (item : RawItem) (master : List MasterItem)
    (hobs : isPartNumberObsolete (item.part_number.getD "") = true)
    (hname : truthy item.material_name = true)
    (hnomatch : master.any (fun m => m.part_number == item.part_number) = false)
    (hnokit : item.kit_available = false) :
    applyClassificationLogic item master =
      ⟨"6", "low", "Compare QC vs BOM & Master Data", "🔴 Human Intervention Required", 0.30,
       false, false, true, false, false, false, true⟩ ∧
    (applyClassificationLogic item master).qa_classification_label ≠ "7" := by
  have hpn : item.part_number = some "OBSOLETE-PN" := by
    unfold isPartNumberObsolete at hobs
    cases hc : item.part_number with
    | none =>
      rw [hc] at hobs
      simp at hobs
    | some s =>
      rw [hc] at hobs
      simp only [Option.getD_some, beq_iff_eq] at hobs
      rw [hobs]
  have hhaspn : truthy item.part_number = true := by
    rw [hpn]
    decide
  have heq : applyClassificationLogic item master =
      ⟨"6", "low", "Compare QC vs BOM & Master Data", "🔴 Human Intervention Required", 0.30,
       false, false, true, false, false, false, true⟩ := by
    simp [applyClassificationLogic, hhaspn, hname, hnomatch, hnokit]
  exact ⟨heq, by rw [heq]; decide⟩

/-- Witness for C2 (amended) at the obsolete part number scenario item. -/
theorem obsolete_pn_routes_to_pn_mismatch_witness :
    applyClassificationLogic
        ⟨some "OBSOLETE-PN", some "Bearing", none, none, false, false, false⟩ [] =
      ⟨"6", "low", "Compare QC vs BOM & Master Data", "🔴 Human Intervention Required", 0.30,
       false, false, true, false, false, false, true⟩ :=
  (obsolete_pn_routes_to_pn_mismatch
    ⟨some "OBSOLETE-PN", some "Bearing", none, none, false, false, false⟩ []
    (by decide) (by decide) (by decide) (by decide)).1

/-- Claim C4: a part-number match in the master with quantity and name present
always fires rule 1 — label `1`, high confidence, auto-register, score 0.95 —
and never falls through to the no-quantity rule (label `3`). -/
theorem rule1_dominates (item : RawItem) (master : List MasterItem)
    (hpn : truthy item.part_number = true)
    (hmatch : master.any (fun m => m.part_number == item.part_number) = true)
    (hqty : truthy item.qty = true)
    (hname : truthy item.material_name = true) :
    applyClassificationLogic item master =
      ⟨"1", "high", "Match to BOM & Item Master Data", "🟢 Auto-Register", 0.95,
       true, false, false, false, false, false, true⟩ ∧
    (applyClassificationLogic item master).qa_classification_label ≠ "3" := by
  have heq : applyClassificationLogic item master =
      ⟨"1", "high", "Match to BOM & Item Master Data", "🟢 Auto-Register", 0.95,
       true, false, false, false, false, false, true⟩ := by
    simp [applyClassificationLogic, hpn, hmatch, hqty, hname]
  exact ⟨heq, by rw [heq]; decide⟩

/-- Witness for C4 at the spec scenario: `PN-123` / `Screw M3x10` / qty `10`
against a master containing that part. -/
theorem rule1_dominates_witness :
    applyClassificationLogic
        ⟨some "PN-123", some "Screw M3x10", some "10", none, false, false, false⟩
        [⟨some "PN-123", some "Screw M3x10"⟩] =
      ⟨"1", "high", "Match to BOM & Item Master Data", "🟢 Auto-Register", 0.95,
       true, false, false, false, false, false, true⟩ :=
  (rule1_dominates
    ⟨some "PN-123", some "Screw M3x10", some "10", none, false, false, false⟩
    [⟨some "PN-123", some "Screw M3x10"⟩]
    (by decide) (by decide) (by decide) (by decide)).1

/-! ## Retry wrapper theorems -/

/-- The retry loop makes at most one attempt per unit of remaining fuel. -/
lemma retryLoop_attempts_le (a : Nat → Attempt) (mr : Nat) :
    ∀ (fuel i : Nat) (delays : List Nat),
      (retryLoop a mr fuel i delays).attemptsMade ≤ i + fuel := by
  intro fuel
  induction fuel with
  | zero =>
    intro i delays
    simp [retryLoop]
  | succ f ih =>
    intro i delays
    rw [retryLoop]
    cases a i with
    | ok r =>
      show i + 1 ≤ i + (f + 1)
      omega
    | httpError c m =>
      dsimp only
      split
      · calc (retryLoop a mr f (i + 1) (delays ++ [2 ^ i])).attemptsMade
            ≤ (i + 1) + f := ih (i + 1) _
          _ = i + (f + 1) := by omega
      · show i + 1 ≤ i + (f + 1)
        omega
    | requestException m =>
      show i + 1 ≤ i + (f + 1)
      omega

/-- A rate-limit signal before the last allowed attempt sleeps `2 ^ i` and
continues with the next attempt. -/
lemma retryLoop_429_step (a : Nat → Attempt) (mr fuel i : Nat) (delays : List Nat)
    (m : String) (h : a i = .httpError 429 m) (hlt : i < mr - 1) :
    retryLoop a mr (fuel + 1) i delays =
      retryLoop a mr fuel (i + 1) (delays ++ [2 ^ i]) := by
  rw [retryLoop, h]
  simp [hlt]

/-- A successful attempt returns the response immediately. -/
lemma retryLoop_ok (a : Nat → Attempt) (mr fuel i : Nat) (delays : List Nat)
    (r : String) (h : a i = .ok r) :
    retryLoop a mr (fuel + 1) i delays = ⟨.ok (some r), i + 1, delays⟩ := by
  rw [retryLoop, h]

/-- Claim C6: the resilient wrapper with the default bound of 5 makes at most
5 attempts; a non-HTTP transport failure or a non-429 HTTP failure at any
attempt raises immediately with no further attempt and no backoff sleep; a
429 on the final allowed attempt raises the terminal failure; the backoff
sleeps double (`2 ^ i`); and a call rate-limited on the first four attempts
that succeeds on the fifth returns the successful response after sleeping
1, 2, 4, 8 seconds. -/
theorem retry_wrapper_behavior (a : Nat → Attempt) :
    (callApiWithRetry a 5).attemptsMade ≤ 5 ∧
    (∀ fuel i delays m, a i = .requestException m →
       retryLoop a 5 (fuel + 1) i delays =
         ⟨.error ("API call failed: " ++ m), i + 1, delays⟩) ∧
    (∀ fuel i delays c m, a i = .httpError c m → c ≠ 429 →
       retryLoop a 5 (fuel + 1) i delays =
         ⟨.error ("API call failed after " ++ toString (i + 1) ++ " retries: " ++ m),
          i + 1, delays⟩) ∧
    ((∀ i, i < 4 → a i = .httpError 429 "rate limited") → a 4 = .ok "resp" →
       callApiWithRetry a 5 = ⟨.ok (some "resp"), 5, [1, 2, 4, 8]⟩) ∧
    ((∀ i, i < 5 → a i = .httpError 429 "rate limited") →
       callApiWithRetry a 5 =
         ⟨.error "API call failed after 5 retries: rate limited", 5, [1, 2, 4, 8]⟩) := by
  refine ⟨retryLoop_attempts_le a 5 5 0 [], ?_, ?_, ?_, ?_⟩
  · intro fuel i delays m h
    rw [retryLoop, h]
  · intro fuel i delays c m h hc
    rw [retryLoop, h]
    simp [hc]
  · intro h429 hok
    show retryLoop a 5 (4 + 1) 0 [] = _
    rw [retryLoop_429_step a 5 4 0 [] _ (h429 0 (by omega)) (by omega),
      retryLoop_429_step a 5 3 1 _ _ (h429 1 (by omega)) (by omega),
      retryLoop_429_step a 5 2 2 _ _ (h429 2 (by omega)) (by omega),
      retryLoop_429_step a 5 1 3 _ _ (h429 3 (by omega)) (by omega),
      retryLoop_ok a 5 0 4 _ _ hok]
    norm_num
  · intro h429
    show retryLoop a 5 (4 + 1) 0 [] = _
    rw [retryLoop_429_step a 5 4 0 [] _ (h429 0 (by omega)) (by omega),
      retryLoop_429_step a 5 3 1 _ _ (h429 1 (by omega)) (by omega),
      retryLoop_429_step a 5 2 2 _ _ (h429 2 (by omega)) (by omega),
      retryLoop_429_step a 5 1 3 _ _ (h429 3 (by omega)) (by omega),
      retryLoop, h429 4 (by omega)]
    norm_num
    decide

/-- Witness for C6: four rate-limit responses then a success returns the
response on the fifth attempt with doubled backoff sleeps. -/
theorem retry_wrapper_behavior_witness :
    callApiWithRetry
        (fun i => if i < 4 then .httpError 429 "rate limited" else .ok "resp") 5 =
      ⟨.ok (some "resp"), 5, [1, 2, 4, 8]⟩ ∧
    (callApiWithRetry
        (fun i => if i < 4 then .httpError 429 "rate limited" else .ok "resp")
        5).attemptsMade ≤ 5 := by
  have h := retry_wrapper_behavior
    (fun i => if i < 4 then .httpError 429 "rate limited" else .ok "resp")
  refine ⟨h.2.2.2.1 ?_ ?_, h.1⟩
  · intro i hi
    simp [hi]
  · norm_num

end BOM
